import Mathlib

/-!
Shallow embedding of the EmoGo backend (src/main.py): a FastAPI service over
one MongoDB collection of journal entries.  Machine floats carry no arithmetic
in this system (stored and returned verbatim), so they are modelled as `Rat`;
MongoDB ObjectIds are modelled as `Nat` with an opaque string rendering.
-/

set_option autoImplicit false

/-- JSON-level values as they occur in request and response bodies.  BSON
ObjectIds (the storage-internal identifier) are one extra value form, `oid`. -/
inductive JValue where
  | null : JValue
  | bool : Bool → JValue
  | int : Int → JValue
  | float : Rat → JValue
  | str : String → JValue
  | oid : Nat → JValue
deriving DecidableEq

/-- A JSON object / BSON document: ordered key-value pairs. -/
abbrev Doc : Type := List (String × JValue)

/-- Field lookup in a JSON object: first pair with the given key, as in
pydantic reading a parsed request body. -/
def lookupField (body : Doc) (k : String) : Option JValue :=
  (body.find? (fun p => p.1 == k)).map Prod.snd

/-- The pydantic model EmoEntry (src/main.py lines 30-37):
id optional int (default None), latitude and longitude required float,
mood required int, photoUri optional str (default None), timestamp
required str. -/
structure EmoEntry where
  id : Option Int
  latitude : Rat
  longitude : Rat
  mood : Int
  photoUri : Option String
  timestamp : String
deriving DecidableEq

/-- Numeric value of a digit character. -/
def digitVal (c : Char) : Nat := c.toNat - 48

/-- Value of a digit list read in base 10 (callers check digit-ness). -/
def digitsVal (ds : List Char) : Nat :=
  ds.foldl (fun a c => 10 * a + digitVal c) 0

/-- Python int(s) on a string: an optional sign followed by one or more
digits.  (Surrounding whitespace and underscore separators are not
modelled.) -/
def pyParseInt (s : String) : Option Int :=
  let go (ds : List Char) (sgn : Int) : Option Int :=
    if ds.isEmpty then none
    else if ds.all Char.isDigit then some (sgn * (digitsVal ds : Int))
    else none
  match s.data with
  | '-' :: rest => go rest (-1)
  | '+' :: rest => go rest 1
  | ds => go ds 1

/-- Python float(s) on a plain decimal string: an optional sign, digits with
an optional dot (digits may be absent on one side of the dot).  Exponent
notation and the special values inf/nan are not modelled. -/
def pyParseFloat (s : String) : Option Rat :=
  let go (ds : List Char) (sgn : Rat) : Option Rat :=
    match ds.splitOn '.' with
    | [ip] =>
        if ip.isEmpty then none
        else if ip.all Char.isDigit then some (sgn * (digitsVal ip : Rat))
        else none
    | [ip, fp] =>
        if ip.isEmpty && fp.isEmpty then none
        else if ip.all Char.isDigit && fp.all Char.isDigit then
          some (sgn * ((digitsVal ip : Rat) +
            (digitsVal fp : Rat) / (10 : Rat) ^ fp.length))
        else none
    | _ => none
  match s.data with
  | '-' :: rest => go rest (-1)
  | '+' :: rest => go rest 1
  | ds => go ds 1

/-- Validate an optional-int field with pydantic's lax coercion: absent or
JSON null gives None; an integer, an integral float, or an integer-literal
string is accepted; anything else is a validation failure.  (Pydantic v1
would additionally truncate non-integral floats and accept bools; modelled
per v2 lax mode, which rejects both.) -/
def validateOptInt : Option JValue → Option (Option Int)
  | none => some none
  | some JValue.null => some none
  | some (JValue.int n) => some (some n)
  | some (JValue.float q) => if q.den = 1 then some (some q.num) else none
  | some (JValue.str s) => (pyParseInt s).map some
  | _ => none

/-- Validate a required float field with pydantic's lax coercion: JSON
integers, floats, and numeric-literal strings are accepted, anything else
fails. -/
def validateFloat : Option JValue → Option Rat
  | some (JValue.int n) => some (n : Rat)
  | some (JValue.float q) => some q
  | some (JValue.str s) => pyParseFloat s
  | _ => none

/-- Validate a required int field with pydantic's lax coercion: integers,
integral floats, and integer-literal strings are accepted.  (Pydantic v1
would additionally truncate non-integral floats and accept bools; modelled
per v2 lax mode, which rejects both.) -/
def validateInt : Option JValue → Option Int
  | some (JValue.int n) => some n
  | some (JValue.float q) => if q.den = 1 then some q.num else none
  | some (JValue.str s) => pyParseInt s
  | _ => none

/-- Validate an optional-string field. -/
def validateOptStr : Option JValue → Option (Option String)
  | none => some none
  | some JValue.null => some none
  | some (JValue.str s) => some (some s)
  | _ => none

/-- Validate a required string field. -/
def validateStr : Option JValue → Option String
  | some (JValue.str s) => some s
  | _ => none

/-- FastAPI/pydantic request-body validation against EmoEntry: each declared
field is read by name; extra keys are ignored (pydantic default); any missing
required field, or any value neither of the declared primitive type nor
coercible to it under pydantic's lax rules, makes the whole body invalid. -/
def validateEmoEntry (body : Doc) : Option EmoEntry := do
  let i ← validateOptInt (lookupField body "id")
  let la ← validateFloat (lookupField body "latitude")
  let lo ← validateFloat (lookupField body "longitude")
  let m ← validateInt (lookupField body "mood")
  let ph ← validateOptStr (lookupField body "photoUri")
  let ts ← validateStr (lookupField body "timestamp")
  pure { id := i, latitude := la, longitude := lo, mood := m,
         photoUri := ph, timestamp := ts }

/-- JSON rendering of an optional int (None becomes null). -/
def idJson : Option Int → JValue
  | none => JValue.null
  | some n => JValue.int n

/-- JSON rendering of an optional string (None becomes null). -/
def strJson : Option String → JValue
  | none => JValue.null
  | some s => JValue.str s

/-- The document `entry.dict()` submitted to insert_one (src/main.py line 67):
all six model fields in declaration order, unsupplied optionals as null. -/
def entryDoc (e : EmoEntry) : Doc :=
  [("id", idJson e.id),
   ("latitude", JValue.float e.latitude),
   ("longitude", JValue.float e.longitude),
   ("mood", JValue.int e.mood),
   ("photoUri", strJson e.photoUri),
   ("timestamp", JValue.str e.timestamp)]

/-- The entries collection.  Only create_entry writes to it in this system, so
every stored document is an application document plus its generated ObjectId;
nextOid models the driver's ObjectId generator. -/
structure Store where
  nextOid : Nat
  docs : List (Nat × EmoEntry)
deriving DecidableEq

/-- The empty collection. -/
def emptyStore : Store := { nextOid := 0, docs := [] }

/-- The stored BSON document for one collection record: the generated _id
followed by the application fields. -/
def storedDoc (p : Nat × EmoEntry) : Doc :=
  ("_id", JValue.oid p.1) :: entryDoc p.2

/-- Result object of pymongo insert_one; the inserted_id is optional because
create_entry's code branches on its absence (src/main.py lines 69-70). -/
structure InsertOneResult where
  inserted_id : Option Nat
deriving DecidableEq

/-- pymongo insert_one: append the document with a fresh ObjectId and report
that identifier back. -/
def insert_one (s : Store) (e : EmoEntry) : Store × InsertOneResult :=
  ({ nextOid := s.nextOid + 1, docs := s.docs ++ [(s.nextOid, e)] },
   { inserted_id := some s.nextOid })

/-- Exclusion projection find({}, {_id: 0}): every field except _id. -/
def excludeUnderscoreId (d : Doc) : Doc :=
  d.filter (fun p => p.1 != "_id")

/-- Inclusion projection find({}, {_id: 0, k1: 1, ...}): only the listed
fields, in the document's own field order, _id excluded. -/
def includeKeys (keys : List String) (d : Doc) : Doc :=
  d.filter (fun p => keys.contains p.1)

/-- All documents of the collection under the exclusion projection {_id: 0}. -/
def findProjectExclId (s : Store) : List Doc :=
  s.docs.map (fun p => excludeUnderscoreId (storedDoc p))

/-- All documents of the collection under an inclusion projection. -/
def findProjectInclKeys (keys : List String) (s : Store) : List Doc :=
  s.docs.map (fun p => includeKeys keys (storedDoc p))

/-- The dynamic content of one of the pretty export pages: its title, the
table columns, the embedded DATA array, the per-row download filename stem,
and the bulk download filename. -/
structure HtmlPage where
  title : String
  columns : List String
  rows : List Doc
  fnameHead : String
  bulkFilename : String
deriving DecidableEq

/-- An HTTP response body of this service. -/
inductive Response where
  | jsonObj : List (String × JValue) → Response
  | jsonDocs : String → List Doc → Response
  | htmlIndex : Response
  | htmlTable : HtmlPage → Response
  | httpError : Nat → String → Response
deriving DecidableEq

/-- The document lists embedded in a response (the data array of GET /entries,
or the DATA array of a pretty page). -/
def Response.embeddedDocs : Response → List Doc
  | Response.jsonDocs _ ds => ds
  | Response.htmlTable p => p.rows
  | _ => []

/-- String rendering str(ObjectId) of the storage identifier; the identifier
is opaque, so its rendering is modelled as the numeral string. -/
def oidString (n : Nat) : String := toString n

/-- Response construction of create_entry after the insert (src/main.py
lines 69-71): 500 Insert failed when the driver reports no inserted_id,
otherwise status ok with the identifier rendered as a string. -/
def createEntryResponse (r : InsertOneResult) : Response :=
  match r.inserted_id with
  | none => Response.httpError 500 "Insert failed"
  | some n => Response.jsonObj
      [("status", JValue.str "ok"), ("inserted_id", JValue.str (oidString n))]

/-- POST /entries (src/main.py lines 65-71).  FastAPI validates the body
against EmoEntry before the handler runs; an invalid body is rejected with a
422 validation error and no storage call. -/
def create_entry (s : Store) (body : Doc) : Store × Response :=
  match validateEmoEntry body with
  | none => (s, Response.httpError 422 "validation error")
  | some e =>
    let sr := insert_one s e
    (sr.1, createEntryResponse sr.2)

/-- GET /entries (src/main.py lines 75-78): all documents with _id stripped,
wrapped in a data envelope. -/
def list_entries (s : Store) : Store × Response :=
  (s, Response.jsonDocs "data" (findProjectExclId s))

/-- GET / (src/main.py lines 54-56). -/
def root (s : Store) : Store × Response :=
  (s, Response.jsonObj [("message", JValue.str "EmoGo backend is running.")])

/-- GET /items/{item_id} (src/main.py lines 59-61). -/
def read_item (s : Store) (item_id : Int) (q : Option String) :
    Store × Response :=
  (s, Response.jsonObj [("item_id", JValue.int item_id), ("q", strJson q)])

/-- GET /export (src/main.py lines 86-136): the static navigation page. -/
def export_page (s : Store) : Store × Response :=
  (s, Response.htmlIndex)

/-- GET /export/all (src/main.py lines 140-239): full documents minus _id,
embedded in the pretty page; per-row files emogo_entry_*.json, bulk file
emogo_all_entries.json. -/
def export_all_html (s : Store) : Store × Response :=
  (s, Response.htmlTable
    { title := "EmoGo All Data",
      columns := ["id", "latitude", "longitude", "mood", "photoUri", "timestamp"],
      rows := findProjectExclId s,
      fnameHead := "emogo_entry_",
      bulkFilename := "emogo_all_entries.json" })

/-- GET /export/vlogs (src/main.py lines 243-341): inclusion projection on
id, photoUri, timestamp. -/
def export_vlogs_html (s : Store) : Store × Response :=
  (s, Response.htmlTable
    { title := "EmoGo Vlogs",
      columns := ["id", "photoUri", "timestamp"],
      rows := findProjectInclKeys ["id", "photoUri", "timestamp"] s,
      fnameHead := "emogo_vlog_",
      bulkFilename := "emogo_vlogs.json" })

/-- GET /export/sentiments (src/main.py lines 345-443): inclusion projection
on id, mood, timestamp. -/
def export_sentiments_html (s : Store) : Store × Response :=
  (s, Response.htmlTable
    { title := "EmoGo Sentiments",
      columns := ["id", "mood", "timestamp"],
      rows := findProjectInclKeys ["id", "mood", "timestamp"] s,
      fnameHead := "emogo_sentiment_",
      bulkFilename := "emogo_sentiments.json" })

/-- GET /export/gps (src/main.py lines 447-547): inclusion projection on
id, latitude, longitude, timestamp. -/
def export_gps_html (s : Store) : Store × Response :=
  (s, Response.htmlTable
    { title := "EmoGo GPS",
      columns := ["id", "latitude", "longitude", "timestamp"],
      rows := findProjectInclKeys ["id", "latitude", "longitude", "timestamp"] s,
      fnameHead := "emogo_gps_",
      bulkFilename := "emogo_gps.json" })

/-- JavaScript string-concatenation rendering of an embedded value, as in
the per-row download handlers ("emogo_..." + filenameId). -/
def jsRender : JValue → String
  | JValue.null => "null"
  | JValue.bool b => if b then "true" else "false"
  | JValue.int n => toString n
  | JValue.float q => toString q
  | JValue.str s => s
  | JValue.oid n => oidString n

/-- Per-row download filename (the onclick handler of each pretty page):
item.id if the id key is present in the embedded object (JS checks only
against undefined, so a null id is used as-is), else the 1-based row index;
idx is the 0-based DATA index. -/
def rowFilename (fh : String) (item : Doc) (idx : Nat) : String :=
  fh ++ (match lookupField item "id" with
         | some v => jsRender v
         | none => toString (idx + 1)) ++ ".json"

/-- Reads the process environment (os.getenv). -/
def getenv (env : List (String × String)) (k : String) : Option String :=
  (env.find? (fun p => p.1 == k)).map Prod.snd

/-- Error message of the startup configuration check. -/
def mongoUriErrorMsg : String :=
  "MONGO_URI is not set. Please set it in .env or Render environment."

/-- Module import time configuration check (src/main.py lines 19-22):
MONGO_URI = os.getenv(...); if not MONGO_URI: raise RuntimeError(...).
Python truthiness makes both a missing and an empty variable fail. -/
def startup (env : List (String × String)) : Except String String :=
  match getenv env "MONGO_URI" with
  | none => Except.error mongoUriErrorMsg
  | some s => if s = "" then Except.error mongoUriErrorMsg else Except.ok s

/-- True when a value is the storage-internal identifier form. -/
def JValue.isOidVal : JValue → Bool
  | JValue.oid _ => true
  | _ => false

/-- A document mentions the storage-internal identifier when it has the _id
key or an ObjectId value. -/
def docMentionsInternalId (d : Doc) : Bool :=
  d.any (fun p => p.1 == "_id" || p.2.isOidVal)

/-- A response body mentions the storage-internal identifier when any of its
embedded objects does. -/
def respMentionsInternalId : Response → Bool
  | Response.jsonObj kvs => kvs.any (fun p => p.1 == "_id" || p.2.isOidVal)
  | Response.jsonDocs _ ds => ds.any docMentionsInternalId
  | Response.htmlTable p => p.rows.any docMentionsInternalId
  | Response.htmlIndex => false
  | Response.httpError _ _ => false

/-- The six application-level keys of a stored entry document. -/
def sixKeys : List String :=
  ["id", "latitude", "longitude", "mood", "photoUri", "timestamp"]

/-- The per-row download filename stem of a pretty-page response. -/
def Response.rowFnameHead : Response → String
  | Response.htmlTable p => p.fnameHead
  | _ => ""

/-- The bulk download filename of a pretty-page response. -/
def Response.bulkFname : Response → String
  | Response.htmlTable p => p.bulkFilename
  | _ => ""

/-- The concrete request body of the spec's round-trip scenario. -/
def bodyC1 : Doc :=
  [("latitude", JValue.float (2503 / 100 : Rat)),
   ("longitude", JValue.float (12156 / 100 : Rat)),
   ("mood", JValue.int 4),
   ("photoUri", JValue.str "p1.jpg"),
   ("timestamp", JValue.str "2024-01-01T10:00:00Z")]

/-- The validated entry obtained from that scenario body. -/
def entryC1 : EmoEntry :=
  { id := none, latitude := (2503 / 100 : Rat), longitude := (12156 / 100 : Rat),
    mood := 4, photoUri := some "p1.jpg", timestamp := "2024-01-01T10:00:00Z" }

/-- A request body missing the required mood field. -/
def bodyMissingMood : Doc :=
  [("latitude", JValue.float 25), ("longitude", JValue.float 121),
   ("photoUri", JValue.str "p1.jpg"), ("timestamp", JValue.str "t")]

/-- A request body whose mood is a JSON string, the wrong primitive type for
the declared int field, but a numeric literal that pydantic coerces. -/
def bodyMoodStr : Doc :=
  [("latitude", JValue.float 25), ("longitude", JValue.float 121),
   ("mood", JValue.str "4"), ("timestamp", JValue.str "t")]

/-- The entry the coercing validation produces from bodyMoodStr. -/
def entryMoodStr : EmoEntry :=
  { id := none, latitude := 25, longitude := 121, mood := 4,
    photoUri := none, timestamp := "t" }

/-- A valid request body that supplies neither optional field. -/
def bodyNoOptionals : Doc :=
  [("latitude", JValue.float 25), ("longitude", JValue.float 121),
   ("mood", JValue.int 3), ("timestamp", JValue.str "t")]

/-- The validated entry obtained from bodyNoOptionals. -/
def entryNoOptionals : EmoEntry :=
  { id := none, latitude := 25, longitude := 121, mood := 3,
    photoUri := none, timestamp := "t" }

/- ------------------------------------------------------------------ -/
/- Helper lemmas shared by the claim theorems. -/

theorem lookupField_cons_ne (k : String) (v : JValue) (body : Doc) (f : String)
    (h : ¬(k = f)) : lookupField ((k, v) :: body) f = lookupField body f := by
  have hb : (k == f) = false := beq_eq_false_iff_ne.mpr h
  simp [lookupField, List.find?, hb]

theorem validateEmoEntry_inv (body : Doc) (e : EmoEntry)
    (h : validateEmoEntry body = some e) :
    validateOptInt (lookupField body "id") = some e.id ∧
    validateOptStr (lookupField body "photoUri") = some e.photoUri := by
  simp only [validateEmoEntry, bind, Option.bind_eq_some, Option.pure_def,
    Option.some.injEq] at h
  obtain ⟨i, hi, la, hla, lo, hlo, m, hm, ph, hph, ts, hts, he⟩ := h
  subst he
  exact ⟨hi, hph⟩

theorem entry_fields_not_oid (e : EmoEntry) :
    docMentionsInternalId (entryDoc e) = false := by
  rcases e with ⟨i, la, lo, m, ph, ts⟩
  cases i <;> cases ph <;> rfl

theorem excl_row_not_oid (p : Nat × EmoEntry) :
    docMentionsInternalId (excludeUnderscoreId (storedDoc p)) = false := by
  obtain ⟨n, e⟩ := p
  exact entry_fields_not_oid e

theorem vlog_row_not_oid (p : Nat × EmoEntry) :
    docMentionsInternalId
      (includeKeys ["id", "photoUri", "timestamp"] (storedDoc p)) = false := by
  obtain ⟨n, e⟩ := p
  rcases e with ⟨i, la, lo, m, ph, ts⟩
  cases i <;> cases ph <;> rfl

theorem sent_row_not_oid (p : Nat × EmoEntry) :
    docMentionsInternalId
      (includeKeys ["id", "mood", "timestamp"] (storedDoc p)) = false := by
  obtain ⟨n, e⟩ := p
  rcases e with ⟨i, la, lo, m, ph, ts⟩
  cases i <;> cases ph <;> rfl

theorem gps_row_not_oid (p : Nat × EmoEntry) :
    docMentionsInternalId
      (includeKeys ["id", "latitude", "longitude", "timestamp"] (storedDoc p)) =
      false := by
  obtain ⟨n, e⟩ := p
  rcases e with ⟨i, la, lo, m, ph, ts⟩
  cases i <;> cases ph <;> rfl

theorem rows_any_false {f : Nat × EmoEntry → Doc}
    (hf : ∀ p, docMentionsInternalId (f p) = false)
    (l : List (Nat × EmoEntry)) :
    (l.map f).any docMentionsInternalId = false := by
  rw [List.any_eq_false]
  intro d hd
  obtain ⟨p, hp, rfl⟩ := List.mem_map.1 hd
  simp [hf p]

/- ------------------------------------------------------------------ -/
/- Claim theorems. -/

/-- C1: posting a well-formed entry and then listing entries yields a result
set containing a record field-for-field equal to the validated posted entry,
with the storage-internal identifier absent; an entry posted without an id
field is listed with id null. -/
theorem post_then_list_contains_entry (s : Store) (body : Doc) (e : EmoEntry)
    (h : validateEmoEntry body = some e) :
    entryDoc e ∈ ((list_entries (create_entry s body).1).2).embeddedDocs ∧
    lookupField (entryDoc e) "_id" = none ∧
    (e.id = none → lookupField (entryDoc e) "id" = some JValue.null) := by
  refine ⟨?_, rfl, ?_⟩
  · simp [create_entry, h, insert_one, list_entries, Response.embeddedDocs,
      findProjectExclId]
    exact Or.inr rfl
  · intro hid
    have h2 : lookupField (entryDoc e) "id" = some (idJson e.id) := rfl
    rw [h2, hid]
    rfl

/-- C1 witness: the spec's concrete scenario, POSTing the sample entry into
the empty store and finding it, id null, in the subsequent listing. -/
theorem post_then_list_contains_entry_witness :
    validateEmoEntry bodyC1 = some entryC1 ∧
    (entryDoc entryC1 ∈
        ((list_entries (create_entry emptyStore bodyC1).1).2).embeddedDocs ∧
      lookupField (entryDoc entryC1) "_id" = none ∧
      (entryC1.id = none →
        lookupField (entryDoc entryC1) "id" = some JValue.null)) :=
  ⟨rfl, post_then_list_contains_entry emptyStore bodyC1 entryC1 rfl⟩

/-- C2: for every store state, each export view's projection returns per
stored entry exactly the fields of its fixed subset (vlogs: id, photoUri,
timestamp; sentiments: id, mood, timestamp; gps: id, latitude, longitude,
timestamp) and no other entry field appears. -/
theorem export_views_project_exact (s : Store) :
    (((export_vlogs_html s).2.embeddedDocs).all
        (fun d => d.map Prod.fst == ["id", "photoUri", "timestamp"]) = true) ∧
    (((export_sentiments_html s).2.embeddedDocs).all
        (fun d => d.map Prod.fst == ["id", "mood", "timestamp"]) = true) ∧
    (((export_gps_html s).2.embeddedDocs).all
        (fun d => d.map Prod.fst ==
          ["id", "latitude", "longitude", "timestamp"]) = true) := by
  refine ⟨?_, ?_, ?_⟩
  all_goals
    rw [List.all_eq_true]
    intro d hd
    simp only [export_vlogs_html, export_sentiments_html, export_gps_html,
      Response.embeddedDocs, findProjectInclKeys] at hd
    obtain ⟨p, hp, rfl⟩ := List.mem_map.1 hd
    cases p
    rfl

/-- C3 counterexample: the claim says the storage-generated identifier
appears in no response body of any endpoint, but POST /entries returns that
very identifier, rendered as a string, in its inserted_id field. -/
theorem insert_response_exposes_inserted_id :
    (insert_one emptyStore entryC1).2.inserted_id = some 0 ∧
    (create_entry emptyStore bodyC1).2 =
      Response.jsonObj [("status", JValue.str "ok"),
                        ("inserted_id", JValue.str (oidString 0))] :=
  ⟨rfl, rfl⟩

/-- C3 (amended): on every endpoint other than the insert response, the
storage-internal identifier (the _id key or an ObjectId value) never appears
in the response body; the insert response alone exposes it, as the
inserted_id string. -/
theorem read_responses_hide_internal_id (s : Store) (i : Int)
    (q : Option String) :
    respMentionsInternalId (root s).2 = false ∧
    respMentionsInternalId (read_item s i q).2 = false ∧
    respMentionsInternalId (list_entries s).2 = false ∧
    respMentionsInternalId (export_page s).2 = false ∧
    respMentionsInternalId (export_all_html s).2 = false ∧
    respMentionsInternalId (export_vlogs_html s).2 = false ∧
    respMentionsInternalId (export_sentiments_html s).2 = false ∧
    respMentionsInternalId (export_gps_html s).2 = false := by
  refine ⟨rfl, ?_, ?_, rfl, ?_, ?_, ?_, ?_⟩
  · cases q <;> rfl
  · exact rows_any_false excl_row_not_oid s.docs
  · exact rows_any_false excl_row_not_oid s.docs
  · exact rows_any_false vlog_row_not_oid s.docs
  · exact rows_any_false sent_row_not_oid s.docs
  · exact rows_any_false gps_row_not_oid s.docs

/-- C4 counterexample: the claim says every body carrying a value of the
wrong primitive type for a declared field is rejected before any storage
write, but a body whose mood is the JSON string "4" — a string, not the
declared int — is coerced by pydantic, accepted with status ok, written to
the collection, and appears in a subsequent listing. -/
theorem coerced_mood_accepted_and_stored :
    validateEmoEntry bodyMoodStr = some entryMoodStr ∧
    (create_entry emptyStore bodyMoodStr).2 =
      Response.jsonObj [("status", JValue.str "ok"),
                        ("inserted_id", JValue.str (oidString 0))] ∧
    entryDoc entryMoodStr ∈
      ((list_entries (create_entry emptyStore bodyMoodStr).1).2).embeddedDocs := by
  refine ⟨rfl, rfl, ?_⟩
  exact List.mem_singleton.mpr rfl

/-- C4 (amended): a request body that fails EmoEntry validation — a required
field missing, or a value neither of the declared primitive type nor
coercible to it (pydantic coerces numeric-literal strings and integral
floats) — is rejected with a client-visible validation error before any
storage write: the collection is unchanged and a subsequent listing is
identical. -/
theorem invalid_body_rejected (s : Store) (body : Doc)
    (h : validateEmoEntry body = none) :
    (create_entry s body).1 = s ∧
    (create_entry s body).2 = Response.httpError 422 "validation error" ∧
    (list_entries (create_entry s body).1).2 = (list_entries s).2 := by
  simp [create_entry, h]

/-- C4 witness: the body missing mood is rejected and the store stays
empty. -/
theorem invalid_body_rejected_witness :
    validateEmoEntry bodyMissingMood = none ∧
    ((create_entry emptyStore bodyMissingMood).1 = emptyStore ∧
      (create_entry emptyStore bodyMissingMood).2 =
        Response.httpError 422 "validation error" ∧
      (list_entries (create_entry emptyStore bodyMissingMood).1).2 =
        (list_entries emptyStore).2) :=
  ⟨rfl, invalid_body_rejected emptyStore bodyMissingMood rfl⟩

/-- C5: for every validated entry, the insert returns status ok plus the
storage-generated identifier rendered as a string when the storage layer
returns one, and a 500 internal error exactly when the storage layer reports
no identifier. -/
theorem insert_result_rules (s : Store) (body : Doc) (e : EmoEntry)
    (h : validateEmoEntry body = some e) :
    ((insert_one s e).2.inserted_id = some s.nextOid ∧
      (create_entry s body).2 =
        Response.jsonObj [("status", JValue.str "ok"),
                          ("inserted_id", JValue.str (oidString s.nextOid))]) ∧
    (∀ r : InsertOneResult,
      (createEntryResponse r = Response.httpError 500 "Insert failed" ↔
        r.inserted_id = none) ∧
      (∀ n : Nat, r.inserted_id = some n →
        createEntryResponse r =
          Response.jsonObj [("status", JValue.str "ok"),
                            ("inserted_id", JValue.str (oidString n))])) := by
  refine ⟨⟨rfl, ?_⟩, ?_⟩
  · simp [create_entry, h, insert_one, createEntryResponse]
  · intro r
    rcases r with ⟨ri⟩
    cases ri with
    | none =>
        refine ⟨by simp [createEntryResponse], ?_⟩
        intro n hn
        cases hn
    | some n =>
        refine ⟨by simp [createEntryResponse], ?_⟩
        intro m hm
        cases hm
        rfl

/-- C5 witness: the scenario insert succeeds with identifier 0 as a string,
and the response construction maps a missing identifier to the 500 error and
a present identifier to the ok object. -/
theorem insert_result_rules_witness :
    validateEmoEntry bodyC1 = some entryC1 ∧
    (create_entry emptyStore bodyC1).2 =
      Response.jsonObj [("status", JValue.str "ok"),
                        ("inserted_id", JValue.str (oidString 0))] ∧
    createEntryResponse { inserted_id := none } =
      Response.httpError 500 "Insert failed" ∧
    createEntryResponse { inserted_id := some 7 } =
      Response.jsonObj [("status", JValue.str "ok"),
                        ("inserted_id", JValue.str (oidString 7))] := by
  refine ⟨rfl, ?_, ?_, ?_⟩
  · exact (insert_result_rules emptyStore bodyC1 entryC1 rfl).1.2
  · exact ((insert_result_rules emptyStore bodyC1 entryC1 rfl).2
      { inserted_id := none }).1.mpr rfl
  · exact ((insert_result_rules emptyStore bodyC1 entryC1 rfl).2
      { inserted_id := some 7 }).2 7 rfl

/-- C6: the document the insert operation writes carries exactly the six
declared keys in order; optional fields not supplied by the client are
stored present with value null; extra keys in the request body are silently
discarded (validation ignores them). -/
theorem inserted_doc_shape (body : Doc) (e : EmoEntry)
    (h : validateEmoEntry body = some e) :
    (entryDoc e).map Prod.fst = sixKeys ∧
    (lookupField body "id" = none →
      lookupField (entryDoc e) "id" = some JValue.null) ∧
    (lookupField body "photoUri" = none →
      lookupField (entryDoc e) "photoUri" = some JValue.null) ∧
    (∀ (k : String) (v : JValue), k ∉ sixKeys →
      validateEmoEntry ((k, v) :: body) = validateEmoEntry body) := by
  obtain ⟨hid, hph⟩ := validateEmoEntry_inv body e h
  refine ⟨rfl, ?_, ?_, ?_⟩
  · intro hnone
    rw [hnone] at hid
    simp only [validateOptInt, Option.some.injEq] at hid
    have h2 : lookupField (entryDoc e) "id" = some (idJson e.id) := rfl
    rw [h2, ← hid]
    rfl
  · intro hnone
    rw [hnone] at hph
    simp only [validateOptStr, Option.some.injEq] at hph
    have h2 : lookupField (entryDoc e) "photoUri" =
        some (strJson e.photoUri) := rfl
    rw [h2, ← hph]
    rfl
  · intro k v hk
    simp only [sixKeys, List.mem_cons, List.not_mem_nil, or_false,
      not_or] at hk
    obtain ⟨h1, h2, h3, h4, h5, h6⟩ := hk
    simp only [validateEmoEntry,
      lookupField_cons_ne k v body "id" h1,
      lookupField_cons_ne k v body "latitude" h2,
      lookupField_cons_ne k v body "longitude" h3,
      lookupField_cons_ne k v body "mood" h4,
      lookupField_cons_ne k v body "photoUri" h5,
      lookupField_cons_ne k v body "timestamp" h6]

/-- C6 witness: a body with neither optional field validates, its document
has exactly the six keys with id and photoUri null, and an extra key changes
nothing. -/
theorem inserted_doc_shape_witness :
    validateEmoEntry bodyNoOptionals = some entryNoOptionals ∧
    (entryDoc entryNoOptionals).map Prod.fst = sixKeys ∧
    lookupField (entryDoc entryNoOptionals) "id" = some JValue.null ∧
    lookupField (entryDoc entryNoOptionals) "photoUri" = some JValue.null ∧
    validateEmoEntry (("extra", JValue.str "x") :: bodyNoOptionals) =
      validateEmoEntry bodyNoOptionals := by
  have H := inserted_doc_shape bodyNoOptionals entryNoOptionals rfl
  exact ⟨rfl, H.1, H.2.1 rfl, H.2.2.1 rfl,
    H.2.2.2 "extra" (JValue.str "x") (by decide)⟩

/-- C7: two consecutive GET /entries calls with no intervening write return
identical results (the read leaves the store untouched, so the second call
sees the same snapshot). -/
theorem list_entries_idempotent (s : Store) :
    (list_entries (list_entries s).1).2 = (list_entries s).2 ∧
    (list_entries s).1 = s :=
  ⟨rfl, rfl⟩

/-- C8: every read operation leaves the stored collection unchanged, and the
insert operation only ever appends one document (entries are never mutated
or deleted). -/
theorem reads_preserve_collection (s : Store) (i : Int) (q : Option String)
    (body : Doc) :
    (root s).1 = s ∧ (read_item s i q).1 = s ∧ (list_entries s).1 = s ∧
    (export_page s).1 = s ∧ (export_all_html s).1 = s ∧
    (export_vlogs_html s).1 = s ∧ (export_sentiments_html s).1 = s ∧
    (export_gps_html s).1 = s ∧
    ((validateEmoEntry body = none ∧ (create_entry s body).1 = s) ∨
      (∃ e, validateEmoEntry body = some e ∧
        (create_entry s body).1.docs = s.docs ++ [(s.nextOid, e)])) := by
  refine ⟨rfl, rfl, rfl, rfl, rfl, rfl, rfl, rfl, ?_⟩
  cases h : validateEmoEntry body with
  | none => exact Or.inl ⟨rfl, by simp [create_entry, h]⟩
  | some e => exact Or.inr ⟨e, rfl, by simp [create_entry, h, insert_one]⟩

/-- C9: each pretty page's per-row download filename is the view-specific
stem followed by the entry's id field when that key is present (a null id is
used as-is) and by the 1-based row position otherwise, and each bulk
download filename is the view-specific constant. -/
theorem export_filename_rules (s : Store) :
    ((export_all_html s).2.rowFnameHead = "emogo_entry_" ∧
      (export_all_html s).2.bulkFname = "emogo_all_entries.json") ∧
    ((export_vlogs_html s).2.rowFnameHead = "emogo_vlog_" ∧
      (export_vlogs_html s).2.bulkFname = "emogo_vlogs.json") ∧
    ((export_sentiments_html s).2.rowFnameHead = "emogo_sentiment_" ∧
      (export_sentiments_html s).2.bulkFname = "emogo_sentiments.json") ∧
    ((export_gps_html s).2.rowFnameHead = "emogo_gps_" ∧
      (export_gps_html s).2.bulkFname = "emogo_gps.json") ∧
    (∀ (fh : String) (d : Doc) (idx : Nat), lookupField d "id" = none →
      rowFilename fh d idx = fh ++ toString (idx + 1) ++ ".json") ∧
    (∀ (fh : String) (d : Doc) (idx : Nat) (v : JValue),
      lookupField d "id" = some v →
      rowFilename fh d idx = fh ++ jsRender v ++ ".json") := by
  refine ⟨⟨rfl, rfl⟩, ⟨rfl, rfl⟩, ⟨rfl, rfl⟩, ⟨rfl, rfl⟩, ?_, ?_⟩
  · intro fh d idx h
    simp [rowFilename, h]
  · intro fh d idx v h
    simp [rowFilename, h]

/-- C9 witness: concrete filenames; note the null id of an id-less entry is
rendered into the filename, and the positional fallback fires only when the
id key is absent from the embedded object. -/
theorem export_filename_rules_witness :
    (export_vlogs_html emptyStore).2.rowFnameHead = "emogo_vlog_" ∧
    rowFilename "emogo_vlog_" [] 0 = "emogo_vlog_1.json" ∧
    rowFilename "emogo_entry_" [("id", JValue.int 7)] 3 =
      "emogo_entry_7.json" ∧
    rowFilename "emogo_entry_" [("id", JValue.null)] 0 =
      "emogo_entry_null.json" := by
  have H := export_filename_rules emptyStore
  exact ⟨H.2.1.1,
    H.2.2.2.2.1 "emogo_vlog_" [] 0 rfl,
    H.2.2.2.2.2 "emogo_entry_" [("id", JValue.int 7)] 3 (JValue.int 7) rfl,
    H.2.2.2.2.2 "emogo_entry_" [("id", JValue.null)] 0 JValue.null rfl⟩

/-- C10 counterexample: with MONGO_URI present in the environment but bound
to the empty string, startup still fails (Python truthiness), so presence
alone does not let startup proceed. -/
theorem startup_fails_with_empty_uri_present :
    getenv [("MONGO_URI", "")] "MONGO_URI" = some "" ∧
    startup [("MONGO_URI", "")] = Except.error mongoUriErrorMsg :=
  ⟨rfl, rfl⟩

/-- C10 (amended): startup fails exactly when MONGO_URI is absent from the
environment or set to the empty string; with a non-empty value it proceeds
with that connection string. -/
theorem startup_fails_iff_uri_absent_or_empty (env : List (String × String)) :
    ((startup env).toOption = none ↔
      (getenv env "MONGO_URI" = none ∨ getenv env "MONGO_URI" = some "")) ∧
    (∀ u : String, getenv env "MONGO_URI" = some u → ¬(u = "") →
      startup env = Except.ok u) := by
  cases h : getenv env "MONGO_URI" with
  | none =>
      refine ⟨by simp [startup, h, Except.toOption], ?_⟩
      intro u hu
      cases hu
  | some s =>
      constructor
      · by_cases hs : s = ""
        · subst hs
          simp [startup, h, Except.toOption]
        · simp [startup, h, hs, Except.toOption]
      · intro u hu hne
        cases hu
        simp [startup, h, hne]

/-- C10 witness: a non-empty connection string lets startup proceed. -/
theorem startup_uri_witness :
    startup [("MONGO_URI", "mongodb://x")] = Except.ok "mongodb://x" :=
  (startup_fails_iff_uri_absent_or_empty [("MONGO_URI", "mongodb://x")]).2
    "mongodb://x" rfl (by decide)
